import Mathlib

/-!
Verification development for the noisy-student training harness
(`src/executor/trainer.py`).  The Python code is shallowly embedded:
pure data flow becomes Lean functions, attribute/dict access follows
Python semantics (missing attribute is an `AttributeError`, iterating a
dict yields its keys, tuple-unpacking a value iterates it and requires
exactly two elements), and fallible steps return `Except String`.
File-system effects (experiment directory, version directories,
checkpoint files) are modelled as explicit state.
-/

set_option autoImplicit false

namespace NoisyStudent

/-- A Python runtime value as used by `trainer.py`: strings, integers,
`None`, and (insertion-ordered) string-keyed dicts. -/
inductive PyVal where
  | none
  | str (s : String)
  | int (n : Int)
  | dict (entries : List (String × PyVal))

/-- Python truthiness for the values above: `None` is falsy, a string is
truthy iff non-empty, an int iff non-zero, a dict iff non-empty. -/
def truthy : PyVal → Bool
  | PyVal.none => false
  | PyVal.str s => !s.isEmpty
  | PyVal.int n => n != 0
  | PyVal.dict l => !l.isEmpty

/-- `d.get(k)` on a Python dict: the stored value, or `None` when the key
is absent. -/
def dict_get (d : List (String × PyVal)) (k : String) : PyVal :=
  match d with
  | [] => PyVal.none
  | (k', v) :: rest => if k' = k then v else dict_get rest k

/-- `setattr(self, name, v)`: overwrite the attribute when present,
otherwise add it. -/
def attr_set (attrs : List (String × PyVal)) (name : String) (v : PyVal) :
    List (String × PyVal) :=
  match attrs with
  | [] => [(name, v)]
  | (k, w) :: rest =>
    if k = name then (name, v) :: rest else (k, w) :: attr_set rest name v

/-- `self.name` attribute read: `none` models an `AttributeError`. -/
def attr_get (attrs : List (String × PyVal)) (name : String) : Option PyVal :=
  match attrs with
  | [] => Option.none
  | (k, v) :: rest => if k = name then Option.some v else attr_get rest name

/-- `for x in v`: iterating a dict yields its keys (as strings, in
insertion order), iterating a string yields its characters as one-char
strings; other values are not iterable. -/
def py_iterate : PyVal → Except String (List PyVal)
  | PyVal.dict l => Except.ok (l.map (fun p => PyVal.str p.1))
  | PyVal.str s => Except.ok (s.toList.map (fun c => PyVal.str (String.singleton c)))
  | _ => Except.error "TypeError: object is not iterable"

/-- Tuple-unpacking `k, v = x`: iterate `x` and require exactly two
elements, otherwise a `ValueError` is raised. -/
def py_unpack2 (v : PyVal) : Except String (PyVal × PyVal) :=
  match py_iterate v with
  | Except.ok [a, b] => Except.ok (a, b)
  | Except.ok _ => Except.error "ValueError: unpack"
  | Except.error e => Except.error e

/-- The loop body of `Trainer.load_from_ckpt` (trainer.py line 92-93):
`for k, v in trainer.get("hyperparams"): setattr(self, k, v)`.  Each
item produced by the iteration is tuple-unpacked into `(k, v)` and then
set as an attribute. -/
def set_attrs_from_items (attrs : List (String × PyVal)) :
    List PyVal → Except String (List (String × PyVal))
  | [] => Except.ok attrs
  | kv :: rest =>
    match py_unpack2 kv with
    | Except.error e => Except.error e
    | Except.ok (k, v) =>
      match k with
      | PyVal.str s => set_attrs_from_items (attr_set attrs s v) rest
      | _ => Except.error "TypeError: attribute name must be string"

/-- `Trainer.__init__` (trainer.py lines 26-31): the attributes stored on
the controller at construction, in assignment order.  No other attribute
is ever assigned by the class (in particular `optim_ckpt` is not). -/
def trainer_init (device : String) (optim_conf scheduler_conf wandb_conf :
    List (String × PyVal)) (max_epochs : Int) (experiment_path : String) :
    List (String × PyVal) :=
  [("device", PyVal.str device),
   ("optim_conf", PyVal.dict optim_conf),
   ("scheduler_conf", PyVal.dict scheduler_conf),
   ("max_epochs", PyVal.int max_epochs),
   ("wandb_conf", PyVal.dict wandb_conf),
   ("experiment_path", PyVal.str experiment_path)]

/-- `Trainer.load_from_ckpt` (trainer.py lines 87-95).
`trainer_ckpt_path = ckpt_path.get("trainer")`; when truthy, the blob is
loaded (`torch_load` stands for `torch.load`) and the code runs
`for k, v in trainer.get("hyperparams"): setattr(self, k, v)` — note the
dict is iterated directly (keys only), not via `.items()`.  When the key
is absent (or falsy) nothing happens. -/
def load_from_ckpt (attrs : List (String × PyVal))
    (ckpt_path : List (String × PyVal)) (torch_load : PyVal → PyVal) :
    Except String (List (String × PyVal)) :=
  let trainer_ckpt_path := dict_get ckpt_path "trainer"
  if truthy trainer_ckpt_path then
    match torch_load trainer_ckpt_path with
    | PyVal.dict trainer =>
      match py_iterate (dict_get trainer "hyperparams") with
      | Except.error e => Except.error e
      | Except.ok items => set_attrs_from_items attrs items
    | _ => Except.error "AttributeError: get"
  else
    Except.ok attrs

/-- Outcome of `Trainer.get_optimizer_and_scheduler`: either the freshly
constructed optimizer/scheduler pair is returned as-is, or its state was
first overwritten from a restored checkpoint blob. -/
inductive OptSchedSource where
  | fresh
  | restoredFromCkpt

/-- The optimizer/scheduler lifecycle of `Trainer.get_optimizer_and_scheduler`
(trainer.py lines 39-54), with construction of the underlying torch
objects kept opaque.  Line 41 reads the attribute `paramters` off the
model (`model.paramters()`), so the call fails unless the model object
actually has an attribute of that (misspelled) name; line 50 reads
`self.optim_ckpt`, an `AttributeError` when that attribute was never
assigned.  When `self.optim_ckpt` exists and is truthy the fresh
optimizer/scheduler state is overwritten from it (lines 51-52), otherwise
the fresh pair is returned. -/
def get_optimizer_and_scheduler (attrs : List (String × PyVal))
    (model_attr_names : List String) : Except String OptSchedSource :=
  if model_attr_names.contains "paramters" then
    match attr_get attrs "optim_ckpt" with
    | Option.none => Except.error "AttributeError: optim_ckpt"
    | Option.some v =>
      if truthy v then Except.ok OptSchedSource.restoredFromCkpt
      else Except.ok OptSchedSource.fresh
  else
    Except.error "AttributeError: paramters"

/-- Attribute names a torch `nn.Module` collaborator actually exposes
(capability set of §6 of the design: forward, recognize, state export,
hyperparameter export, and the trainable-parameter accessor `parameters`).
The misspelling `paramters` is not among them. -/
def nn_module_attr_names : List String :=
  ["forward", "recognize", "parameters", "state_dict", "load_state_dict"]

/-- `d[k] = v` / `d.update({k: v})` on an int-valued Python dict:
overwrite the binding when the key is present, otherwise append it. -/
def dict_update (d : List (String × Int)) (k : String) (v : Int) :
    List (String × Int) :=
  match d with
  | [] => [(k, v)]
  | (k', w) :: rest =>
    if k' = k then (k, v) :: rest else (k', w) :: dict_update rest k v

/-- Lookup in an int-valued Python dict (first binding of the key). -/
def dict_lookup (d : List (String × Int)) (k : String) : Option Int :=
  match d with
  | [] => Option.none
  | (k', v) :: rest => if k' = k then Option.some v else dict_lookup rest k

/-- The scheduler-configuration handling of
`Trainer.get_optimizer_and_scheduler` (trainer.py lines 43-48): when
`self.scheduler_conf.sched_name == "OneCycleLR"`, the configuration is
updated with `total_steps = len(dataloader) * self.max_epochs` before the
scheduler is constructed from it; for any other scheduler name the
configuration is passed to the constructor unchanged. -/
def scheduler_conf_for_construction (sched_name : String)
    (scheduler_conf : List (String × Int)) (dataloader_len max_epochs : Int) :
    List (String × Int) :=
  if sched_name = "OneCycleLR" then
    dict_update scheduler_conf "total_steps" (dataloader_len * max_epochs)
  else
    scheduler_conf

/-- Checkpoint file name scheme of `Trainer.save_ckpt` (trainer.py
lines 78-79): `{className}.epoch={epoch}.step={step}.pt`. -/
def ckpt_file_name (className : String) (epoch step : Int) : String :=
  className ++ ".epoch=" ++ toString epoch ++ ".step=" ++ toString step ++ ".pt"

/-- Name of the trainer blob file (trainer.py line 78): built from
`self.__class__.__name__`, the concrete trainer's class name. -/
def trainer_ckpt_name (trainerClass : String) (epoch step : Int) : String :=
  ckpt_file_name trainerClass epoch step

/-- Name of the model blob file (trainer.py line 79).  Line 72 rebinds the
local `model` to a plain `dict(model_state_dict=..., hyperparams=...)`
before line 79 reads `model.__class__.__name__`, so the class name
embedded in this file name is `"dict"` for every model; the actual model
class name (the parameter below) is not used. -/
def model_ckpt_name (_modelClass : String) (epoch step : Int) : String :=
  ckpt_file_name "dict" epoch step

/-- The experiment directory as seen by `Trainer.save_ckpt`: the list of
existing `version_*` subdirectories (in creation order), each with the
names of the files it holds. -/
structure ExperimentDir where
  versions : List (String × List String)

/-- Writing a file into a directory (`torch.save(obj, path)`): a new name
is appended, writing an existing name replaces its content and adds no
entry. -/
def fs_write (files : List String) (name : String) : List String :=
  if files.contains name then files else files ++ [name]

/-- `Trainer.save_ckpt` (trainer.py lines 56-85) as a transformation of
the experiment directory: `version = len(glob(experiment_path +
"/version_*"))` counts the existing version subdirectories, `os.mkdir`
creates `version_{version}`, and the two blobs are saved into it under
the names of lines 78-79.  No other directory is touched. -/
def save_ckpt (d : ExperimentDir) (trainerClass modelClass : String)
    (epoch step : Int) : ExperimentDir :=
  let version := d.versions.length
  let version_name := "version_" ++ toString version
  let trainer_name := trainer_ckpt_name trainerClass epoch step
  let model_name := model_ckpt_name modelClass epoch step
  ⟨d.versions ++ [(version_name, fs_write (fs_write [] trainer_name) model_name)]⟩

/-- The observable calls made by one iteration of the epoch loop of
`Trainer.train`. -/
inductive TrainEvent where
  | trainPass
  | validPass
  | schedStep
  deriving DecidableEq

/-- One epoch-loop body of `Trainer.train` (trainer.py lines 100-105):
`self.train_epoch(...)`, then `self.test_epoch(..., "valid")`, then
`scheduler.step()` exactly when `self.scheduler_conf.interval ==
"epoch"`. -/
def epoch_body (interval : String) : List TrainEvent :=
  [TrainEvent.trainPass, TrainEvent.validPass] ++
    (if interval = "epoch" then [TrainEvent.schedStep] else [])

/-- The trace of `Trainer.train` (trainer.py lines 97-105): the loop
`for epoch in range(1, self.max_epochs + 1)` runs the body once per
epoch; the body does not depend on the epoch index, so the trace is the
body repeated `max_epochs` times. -/
def train_trace (max_epochs : Nat) (interval : String) : List TrainEvent :=
  match max_epochs with
  | 0 => []
  | n + 1 => epoch_body interval ++ train_trace n interval

/-- The per-batch checkpoint step identifier used by
`TeacherTrainer.train_epoch` (trainer.py line 175) and
`StudentTrainer.train_epoch` (line 287): `epoch * batch_idx`. -/
def step_id (epoch batch_idx : Nat) : Nat :=
  epoch * batch_idx

/-- The experiment-directory guard of `Trainer.__init__` (trainer.py
lines 33-34): `if os.path.exists(experiment_path): os.mkdir(...)`.
Result: whether `os.mkdir` was invoked, and whether the experiment
directory exists afterwards.  When the path does not exist the guard is
skipped, so nothing is created. -/
def init_experiment_dir (path_exists : Bool) : Bool × Bool :=
  if path_exists then (true, path_exists) else (false, path_exists)

/-- Opening a file for writing under a directory (`open(path, "a")` or
`torch.save`): fails with `FileNotFoundError` when the directory does not
exist. -/
def write_under_dir (dir_exists : Bool) : Except String Unit :=
  if dir_exists then Except.ok () else Except.error "FileNotFoundError"

/-- The positional arguments `Trainer.train` passes to
`self.train_epoch` (trainer.py line 101), after the implicit `self`. -/
def train_epoch_call_args : List String :=
  ["model", "dataloader", "optimizer", "scheduler", "epoch"]

/-- The parameters of `StudentTrainer.train_epoch` (trainer.py
lines 234-242), after the implicit `self`; none has a default value. -/
def studentTrainer_train_epoch_params : List String :=
  ["teacher_model", "student_model", "dataloader", "optimizer", "scheduler", "epoch"]

/-- Python call dispatch for a method whose parameters all lack defaults:
the call succeeds iff the number of positional arguments equals the
number of parameters (otherwise a `TypeError` is raised). -/
def call_dispatch_ok (params : List String) (num_args : Nat) : Bool :=
  num_args == params.length

/-- The pseudo-label override loop of `StudentTrainer.train_epoch`
(trainer.py lines 254-255): `for origin_trans, idx in trans:
predicted[idx] = origin_trans`.  Python list assignment at an index
leaves the list unchanged only in length; an out-of-range index would
raise, so the embedding keeps `List.set` which is the in-range case. -/
def override_pseudo_labels (predicted : List String)
    (trans : List (String × Nat)) : List String :=
  trans.foldl (fun acc p => acc.set p.2 p.1) predicted

/-- Padding one target to the batch maximum length with zeros
(`pad_sequence(..., batch_first=True)`, trainer.py line 264). -/
def pad_to (len : Nat) (s : List Int) : List Int :=
  s ++ List.replicate (len - s.length) 0

/-- The target-construction pipeline of `StudentTrainer.train_epoch`
(trainer.py lines 251-264): the teacher's recognized transcripts
(`predicted`, raw text) have the flagged ground-truth transcripts written
over them (lines 254-255); every entry still in raw text form is
tokenized (lines 257-259; all entries are raw text here) and
integer-encoded (line 261); `target_len` records each encoded length
(line 263) and `target` pads all encoded targets to the batch maximum
length (line 264).  Returns `(target, target_len)`. -/
def student_targets (tokenize : String → List String)
    (text2int : List String → List Int) (predicted : List String)
    (trans : List (String × Nat)) : List (List Int) × List Nat :=
  let mixed := override_pseudo_labels predicted trans
  let encoded := (mixed.map tokenize).map text2int
  let target_len := encoded.map List.length
  let max_len := encoded.foldl (fun m s => max m s.length) 0
  (encoded.map (pad_to max_len), target_len)

/-- The batch maximum target length `pad_sequence` pads to (trainer.py
line 264): the maximum encoded-target length over the mixed batch. -/
def student_targets_max_len (tokenize : String → List String)
    (text2int : List String → List Int) (predicted : List String)
    (trans : List (String × Nat)) : Nat :=
  (((override_pseudo_labels predicted trans).map tokenize).map
    text2int).foldl (fun m s => max m s.length) 0

/-! ## Helper lemmas -/

theorem dict_lookup_update (d : List (String × Int)) (k : String) (v : Int) :
    dict_lookup (dict_update d k v) k = Option.some v := by
  induction d with
  | nil => simp [dict_update, dict_lookup]
  | cons p rest ih =>
    by_cases h : p.1 = k
    · simp [dict_update, dict_lookup, h]
    · simpa [dict_update, dict_lookup, h] using ih

theorem ckpt_file_name_ne (a b : String) (e s : Int) (h : a ≠ b) :
    ckpt_file_name a e s ≠ ckpt_file_name b e s := by
  intro hc
  apply h
  unfold ckpt_file_name at hc
  have hd := congrArg String.data hc
  simp only [String.data_append, List.append_assoc] at hd
  exact String.ext (List.append_cancel_right hd)

theorem override_pseudo_labels_length (trans : List (String × Nat))
    (predicted : List String) :
    (override_pseudo_labels predicted trans).length = predicted.length := by
  induction trans generalizing predicted with
  | nil => rfl
  | cons p rest ih =>
    simpa [override_pseudo_labels, List.foldl_cons] using
      (ih (predicted.set p.2 p.1)).trans (List.length_set ..)

theorem override_pseudo_labels_not_mem (trans : List (String × Nat))
    (predicted : List String) (i : Nat) (h : i ∉ trans.map Prod.snd) :
    (override_pseudo_labels predicted trans)[i]? = predicted[i]? := by
  induction trans generalizing predicted with
  | nil => rfl
  | cons p rest ih =>
    simp only [List.map_cons, List.mem_cons, not_or] at h
    have step : (override_pseudo_labels (predicted.set p.2 p.1) rest)[i]? =
        (predicted.set p.2 p.1)[i]? := ih (predicted.set p.2 p.1) h.2
    calc (override_pseudo_labels predicted (p :: rest))[i]?
        = (override_pseudo_labels (predicted.set p.2 p.1) rest)[i]? := rfl
      _ = (predicted.set p.2 p.1)[i]? := step
      _ = predicted[i]? := List.getElem?_set_ne (fun hh => h.1 hh.symm)

theorem override_pseudo_labels_mem (trans : List (String × Nat))
    (predicted : List String) (t : String) (i : Nat)
    (hmem : (t, i) ∈ trans) (hnd : (trans.map Prod.snd).Nodup)
    (hlt : i < predicted.length) :
    (override_pseudo_labels predicted trans)[i]? = Option.some t := by
  induction trans generalizing predicted with
  | nil => exact absurd hmem (List.not_mem_nil _)
  | cons p rest ih =>
    simp only [List.map_cons, List.nodup_cons] at hnd
    rcases List.mem_cons.mp hmem with heq | htail
    · subst heq
      have hni : i ∉ rest.map Prod.snd := hnd.1
      calc (override_pseudo_labels predicted ((t, i) :: rest))[i]?
          = (override_pseudo_labels (predicted.set i t) rest)[i]? := rfl
        _ = (predicted.set i t)[i]? :=
            override_pseudo_labels_not_mem rest (predicted.set i t) i hni
        _ = Option.some t := by
            rw [List.getElem?_set_self]
            · omega
    · calc (override_pseudo_labels predicted (p :: rest))[i]?
          = (override_pseudo_labels (predicted.set p.2 p.1) rest)[i]? := rfl
        _ = Option.some t := by
            refine ih (predicted.set p.2 p.1) htail hnd.2 ?hl
            rw [List.length_set]
            exact hlt

theorem le_foldl_max_init {α : Type} (f : α → Nat) (l : List α) (a : Nat) :
    a ≤ l.foldl (fun m t => max m (f t)) a := by
  induction l generalizing a with
  | nil => exact Nat.le_refl a
  | cons x rest ih =>
    exact Nat.le_trans (Nat.le_max_left a (f x)) (ih (max a (f x)))

theorem le_foldl_max_mem {α : Type} (f : α → Nat) (l : List α) (a : Nat)
    (s : α) (h : s ∈ l) : f s ≤ l.foldl (fun m t => max m (f t)) a := by
  induction l generalizing a with
  | nil => exact absurd h (List.not_mem_nil _)
  | cons x rest ih =>
    rcases List.mem_cons.mp h with heq | htail
    · subst heq
      exact Nat.le_trans (Nat.le_max_right a (f s)) (le_foldl_max_init f rest _)
    · exact ih (max a (f x)) htail

theorem pad_to_length (len : Nat) (s : List Int) (h : s.length ≤ len) :
    (pad_to len s).length = len := by
  simp [pad_to]
  omega

theorem train_trace_count_train (M : Nat) (interval : String) :
    (train_trace M interval).count TrainEvent.trainPass = M := by
  induction M with
  | zero => rfl
  | succ n ih =>
    rw [train_trace, List.count_append, ih]
    have hb : (epoch_body interval).count TrainEvent.trainPass = 1 := by
      unfold epoch_body
      split <;> decide
    omega

theorem train_trace_count_valid (M : Nat) (interval : String) :
    (train_trace M interval).count TrainEvent.validPass = M := by
  induction M with
  | zero => rfl
  | succ n ih =>
    rw [train_trace, List.count_append, ih]
    have hb : (epoch_body interval).count TrainEvent.validPass = 1 := by
      unfold epoch_body
      split <;> decide
    omega

theorem train_trace_count_sched (M : Nat) (interval : String) :
    (train_trace M interval).count TrainEvent.schedStep =
      if interval = "epoch" then M else 0 := by
  induction M with
  | zero => simp [train_trace]
  | succ n ih =>
    have hb : (epoch_body interval).count TrainEvent.schedStep =
        if interval = "epoch" then 1 else 0 := by
      unfold epoch_body
      split <;> simp_all
    rw [train_trace, List.count_append, ih, hb]
    split <;> omega

theorem train_trace_flatten (M : Nat) (interval : String) :
    train_trace M interval = (List.replicate M (epoch_body interval)).flatten := by
  induction M with
  | zero => rfl
  | succ n ih => rw [train_trace, ih, List.replicate_succ, List.flatten_cons]

/-! ## Claim theorems -/

/-- C4: in `get_optimizer_and_scheduler`, when the configured scheduler
name is `"OneCycleLR"` the scheduler configuration's `total_steps` is set
to `len(dataloader) * max_epochs` before the scheduler is constructed;
for any other scheduler name `total_steps` is not injected (the
configuration is passed on unchanged). -/
theorem one_cycle_total_steps (sched_name : String)
    (scheduler_conf : List (String × Int)) (dataloader_len max_epochs : Int) :
    (sched_name = "OneCycleLR" →
      dict_lookup (scheduler_conf_for_construction sched_name scheduler_conf
        dataloader_len max_epochs) "total_steps"
        = Option.some (dataloader_len * max_epochs))
  ∧ (sched_name ≠ "OneCycleLR" →
      scheduler_conf_for_construction sched_name scheduler_conf
        dataloader_len max_epochs = scheduler_conf) := by
  constructor
  · intro h
    simp [scheduler_conf_for_construction, h, dict_lookup_update]
  · intro h
    simp [scheduler_conf_for_construction, h]

/-- Witness for C4: concrete one-cycle and non-one-cycle configurations. -/
theorem one_cycle_total_steps_witness :
    ("OneCycleLR" : String) = "OneCycleLR"
  ∧ dict_lookup (scheduler_conf_for_construction "OneCycleLR"
      [("max_lr", 7)] 5 3) "total_steps" = Option.some 15
  ∧ ("StepLR" : String) ≠ "OneCycleLR"
  ∧ scheduler_conf_for_construction "StepLR" [("step_size", 2)] 5 3
      = [("step_size", 2)] :=
  ⟨rfl, (one_cycle_total_steps "OneCycleLR" [("max_lr", 7)] 5 3).1 rfl,
   by decide, (one_cycle_total_steps "StepLR" [("step_size", 2)] 5 3).2 (by decide)⟩

/-- C5 (code bug): `load_from_ckpt` runs `for k, v in
trainer.get("hyperparams")`, iterating the hyperparameters dict directly
instead of `.items()`; the iteration yields only the keys, and
tuple-unpacking a stored key such as `"max_epochs"` raises a
`ValueError`, so no stored hyperparameter is ever written onto the
controller. -/
theorem load_from_ckpt_unpack_valueerror :
    load_from_ckpt (trainer_init "cpu" [] [] [] 10 "exp")
        [("trainer", PyVal.str "version_0/TeacherTrainer.epoch=1.step=1.pt")]
        (fun _ => PyVal.dict
          [("optim", PyVal.dict []),
           ("hyperparams", PyVal.dict [("max_epochs", PyVal.int 3)])])
      = Except.error "ValueError: unpack" := rfl

/-- C6 (code bug): with a restore mapping lacking the key `"trainer"`,
`load_from_ckpt` indeed leaves the controller's attributes unchanged, but
the subsequent `get_optimizer_and_scheduler` does not return the fresh
optimizer/scheduler: it raises an `AttributeError` — line 41 reads the
misspelled `model.paramters`, and even with a model exposing that name,
line 50 reads `self.optim_ckpt`, an attribute no code path ever
assigns. -/
theorem cold_start_optimizer_attribute_error :
    (load_from_ckpt (trainer_init "cpu" [] [] [] 3 "exp") []
        (fun _ => PyVal.none)
        = Except.ok (trainer_init "cpu" [] [] [] 3 "exp"))
  ∧ (attr_get (trainer_init "cpu" [] [] [] 3 "exp") "optim_ckpt"
        = Option.none)
  ∧ (get_optimizer_and_scheduler (trainer_init "cpu" [] [] [] 3 "exp")
        nn_module_attr_names
        = Except.error "AttributeError: paramters")
  ∧ (get_optimizer_and_scheduler (trainer_init "cpu" [] [] [] 3 "exp")
        ("paramters" :: nn_module_attr_names)
        = Except.error "AttributeError: optim_ckpt") :=
  ⟨rfl, rfl, rfl, rfl⟩

/-- C7 (code bug): the trainer blob is indeed named
`{TrainerClassName}.epoch={E}.step={S}.pt`, but the model blob is named
`dict.epoch={E}.step={S}.pt` for every model, because `save_ckpt` rebinds
the local `model` to a plain dict (line 72) before reading
`model.__class__.__name__` (line 79). -/
theorem model_ckpt_name_is_dict :
    trainer_ckpt_name "TeacherTrainer" 1 2 = "TeacherTrainer.epoch=1.step=2.pt"
  ∧ model_ckpt_name "Conformer" 1 2 = "dict.epoch=1.step=2.pt"
  ∧ model_ckpt_name "Conformer" 1 2 ≠ "Conformer.epoch=1.step=2.pt" := by
  refine ⟨rfl, rfl, ?_⟩
  decide

/-- C8: the per-batch checkpoint step identifier `epoch * batch_idx`
collides across epochs — the distinct events (epoch 2, batch 1) and
(epoch 1, batch 2) share identifier 2 — and it is not globally monotonic:
the later event (epoch 2, batch 1) has a smaller identifier than the
earlier event (epoch 1, batch 3). -/
theorem step_id_not_monotonic :
    step_id 2 1 = step_id 1 2
  ∧ ((2, 1) : Nat × Nat) ≠ (1, 2)
  ∧ step_id 1 3 = 3
  ∧ step_id 2 1 = 2
  ∧ step_id 2 1 < step_id 1 3 := by decide

/-- C9: the experiment-directory guard of `Trainer.__init__` is inverted:
`os.mkdir` is invoked exactly when the path already exists, and when the
path does not exist nothing is created, so a downstream file write under
the experiment path fails with `FileNotFoundError`. -/
theorem init_experiment_dir_guard_inverted (path_exists : Bool) :
    ((init_experiment_dir path_exists).1 = true ↔ path_exists = true)
  ∧ (path_exists = false →
      (init_experiment_dir path_exists).2 = false
      ∧ write_under_dir (init_experiment_dir path_exists).2
          = Except.error "FileNotFoundError") := by
  cases path_exists <;> simp [init_experiment_dir, write_under_dir]

/-- Witness for C9: the missing-directory case. -/
theorem init_experiment_dir_guard_inverted_witness :
    (false = false)
  ∧ ((init_experiment_dir false).2 = false
      ∧ write_under_dir (init_experiment_dir false).2
          = Except.error "FileNotFoundError") :=
  ⟨rfl, (init_experiment_dir_guard_inverted false).2 rfl⟩

/-- C10: `Trainer.train` passes five positional arguments to
`self.train_epoch`, while `StudentTrainer.train_epoch` declares six
parameters without defaults, so the inherited epoch loop can never
successfully dispatch a student training pass (the call raises a
`TypeError`). -/
theorem student_train_epoch_never_dispatched :
    train_epoch_call_args.length = 5
  ∧ studentTrainer_train_epoch_params.length = 6
  ∧ call_dispatch_ok studentTrainer_train_epoch_params
      train_epoch_call_args.length = false := by decide

/-- C1: for an experiment directory with N existing `version_*`
subdirectories, one `save_ckpt` call appends the subdirectory
`version_N` (N = count of existing version subdirectories), leaves every
existing version directory unchanged, and the new directory holds exactly
two files — the trainer blob and the model blob (distinct names as long
as the trainer class is not literally called `dict`). -/
theorem save_ckpt_creates_next_version (d : ExperimentDir)
    (trainerClass modelClass : String) (epoch step : Int)
    (h : trainerClass ≠ "dict") :
    ((save_ckpt d trainerClass modelClass epoch step).versions.length
        = d.versions.length + 1)
  ∧ ((save_ckpt d trainerClass modelClass epoch step).versions.take
        d.versions.length = d.versions)
  ∧ ((save_ckpt d trainerClass modelClass epoch step).versions[d.versions.length]?
        = Option.some ("version_" ++ toString d.versions.length,
            [trainer_ckpt_name trainerClass epoch step,
             model_ckpt_name modelClass epoch step]))
  ∧ ([trainer_ckpt_name trainerClass epoch step,
      model_ckpt_name modelClass epoch step].length = 2
      ∧ [trainer_ckpt_name trainerClass epoch step,
         model_ckpt_name modelClass epoch step].Nodup) := by
  have hne : trainer_ckpt_name trainerClass epoch step ≠
      model_ckpt_name modelClass epoch step :=
    ckpt_file_name_ne trainerClass "dict" epoch step h
  have hw : fs_write (fs_write [] (trainer_ckpt_name trainerClass epoch step))
      (model_ckpt_name modelClass epoch step)
      = [trainer_ckpt_name trainerClass epoch step,
         model_ckpt_name modelClass epoch step] := by
    simp [fs_write, hne, hne.symm]
  refine ⟨?_, ?_, ?_, ?_, ?_⟩
  · simp [save_ckpt]
  · simp only [save_ckpt]
    exact List.take_left ..
  · simp only [save_ckpt, hw]
    exact List.getElem?_concat_length ..
  · rfl
  · simp [hne]

/-- Witness for C1: saving on top of one existing version directory
creates `version_1` with the two blob files. -/
theorem save_ckpt_creates_next_version_witness :
    ("TeacherTrainer" : String) ≠ "dict"
  ∧ ((save_ckpt ⟨[("version_0", ["old.pt"])]⟩ "TeacherTrainer" "Conformer"
        1 2).versions[1]?
      = Option.some ("version_1",
          ["TeacherTrainer.epoch=1.step=2.pt", "dict.epoch=1.step=2.pt"])) :=
  ⟨by decide,
   (save_ckpt_creates_next_version ⟨[("version_0", ["old.pt"])]⟩
     "TeacherTrainer" "Conformer" 1 2 (by decide)).2.2.1⟩

/-- C2: for `max_epochs = M ≥ 1`, one `train` call runs the train pass
and the validation pass exactly M times each in alternating per-epoch
order (the trace is M copies of the epoch body, which is train pass then
validation pass then the optional epoch-level scheduler step), steps the
scheduler at epoch granularity exactly M times when the configured
interval is `"epoch"`, and zero times in `train`'s own loop when it is
`"step"`. -/
theorem train_alternation_and_sched_counts (M : Nat) (hM : 1 ≤ M)
    (interval : String) :
    (train_trace M interval).count TrainEvent.trainPass = M
  ∧ (train_trace M interval).count TrainEvent.validPass = M
  ∧ (interval = "epoch" →
      (train_trace M interval).count TrainEvent.schedStep = M)
  ∧ (interval = "step" →
      (train_trace M interval).count TrainEvent.schedStep = 0)
  ∧ train_trace M interval = (List.replicate M (epoch_body interval)).flatten := by
  refine ⟨train_trace_count_train M interval, train_trace_count_valid M interval,
    ?_, ?_, train_trace_flatten M interval⟩
  · intro h
    rw [train_trace_count_sched, if_pos h]
  · intro h
    rw [train_trace_count_sched, h, if_neg (by decide)]

/-- Witness for C2: three epochs with an epoch-level scheduler step the
scheduler exactly three times. -/
theorem train_alternation_and_sched_counts_witness :
    1 ≤ 3
  ∧ (train_trace 3 "epoch").count TrainEvent.schedStep = 3 :=
  ⟨by decide, (train_alternation_and_sched_counts 3 (by decide) "epoch").2.2.1 rfl⟩

/-- C3: in the student training step, after mixing: at every batch-local
index flagged in the `trans` side-channel the student target is the
tokenized and integer-encoded flagged ground-truth transcript, every
other index keeps the (tokenized and encoded) teacher-recognized output,
all targets are padded to the batch maximum length, and the true
(unpadded) lengths are recorded in parallel. -/
theorem student_targets_mix (tokenize : String → List String)
    (text2int : List String → List Int) (predicted : List String)
    (trans : List (String × Nat))
    (hnd : (trans.map Prod.snd).Nodup)
    (hlt : ∀ p ∈ trans, p.2 < predicted.length) :
    (∀ t i, (t, i) ∈ trans →
      (student_targets tokenize text2int predicted trans).1[i]?
        = Option.some (pad_to
            (student_targets_max_len tokenize text2int predicted trans)
            (text2int (tokenize t)))
      ∧ (student_targets tokenize text2int predicted trans).2[i]?
        = Option.some (text2int (tokenize t)).length)
  ∧ (∀ i, i ∉ trans.map Prod.snd →
      (student_targets tokenize text2int predicted trans).1[i]?
        = predicted[i]?.map (fun s => pad_to
            (student_targets_max_len tokenize text2int predicted trans)
            (text2int (tokenize s)))
      ∧ (student_targets tokenize text2int predicted trans).2[i]?
        = predicted[i]?.map (fun s => (text2int (tokenize s)).length))
  ∧ (∀ row ∈ (student_targets tokenize text2int predicted trans).1,
      row.length = student_targets_max_len tokenize text2int predicted trans) := by
  have hfst : (student_targets tokenize text2int predicted trans).1
      = (((override_pseudo_labels predicted trans).map tokenize).map
          text2int).map
          (pad_to (student_targets_max_len tokenize text2int predicted trans)) :=
    rfl
  have hsnd : (student_targets tokenize text2int predicted trans).2
      = (((override_pseudo_labels predicted trans).map tokenize).map
          text2int).map List.length := rfl
  have hidx : ∀ j : Nat,
      (((override_pseudo_labels predicted trans).map tokenize).map text2int)[j]?
        = (override_pseudo_labels predicted trans)[j]?.map
            (fun s => text2int (tokenize s)) := by
    intro j
    rw [List.getElem?_map, List.getElem?_map, Option.map_map]
    rfl
  refine ⟨?_, ?_, ?_⟩
  · intro t i hmem
    have hi : i < predicted.length := hlt (t, i) hmem
    have hmix : (override_pseudo_labels predicted trans)[i]? = Option.some t :=
      override_pseudo_labels_mem trans predicted t i hmem hnd hi
    constructor
    · rw [hfst, List.getElem?_map, hidx i, hmix]
      rfl
    · rw [hsnd, List.getElem?_map, hidx i, hmix]
      rfl
  · intro i hni
    have hmix : (override_pseudo_labels predicted trans)[i]? = predicted[i]? :=
      override_pseudo_labels_not_mem trans predicted i hni
    constructor
    · rw [hfst, List.getElem?_map, hidx i, hmix, Option.map_map]
      rfl
    · rw [hsnd, List.getElem?_map, hidx i, hmix, Option.map_map]
      rfl
  · intro row hrow
    rw [hfst] at hrow
    rcases List.mem_map.mp hrow with ⟨s, hs, rfl⟩
    exact pad_to_length _ s (le_foldl_max_mem List.length _ 0 s hs)

/-- Witness for C3: a four-element batch with ground-truth overrides at
indices 1 and 3, character tokenization, and a toy integer encoding. -/
theorem student_targets_mix_witness :
    ((([("a", 1), ("b", 3)] : List (String × Nat)).map Prod.snd).Nodup
  ∧ (∀ p ∈ ([("a", 1), ("b", 3)] : List (String × Nat)),
      p.2 < (["p0x", "p1", "p2", "p3"] : List String).length))
  ∧ (student_targets (fun s => s.toList.map (fun c => String.singleton c))
      (fun ts => ts.map (fun t => (t.length : Int)))
      ["p0x", "p1", "p2", "p3"] [("a", 1), ("b", 3)]).1[1]?
      = Option.some [1, 0, 0] :=
  ⟨⟨by decide, by decide⟩,
   ((student_targets_mix (fun s => s.toList.map (fun c => String.singleton c))
      (fun ts => ts.map (fun t => (t.length : Int)))
      ["p0x", "p1", "p2", "p3"] [("a", 1), ("b", 3)]
      (by decide) (by decide)).1 "a" 1 (by decide)).1⟩

end NoisyStudent
